import Mathlib

/-!
# Verification of the scoreline per-device light orchestration engine

Shallow embedding of the core of the repository:

* `src/app/wled.py` — the SegmentRenderer (`WLEDController.calculate_segments`
  and the surrounding config), modelled as pure Lean functions.  Python floats
  are modelled as `ℚ`; Python `int()` (truncation toward zero) is `pyInt`.
* `src/app/main.py` — the DeviceOrchestrator state machine
  (`InstanceState` together with the watch / simulate / post-game / poll /
  reconcile operations), modelled as explicit state-passing functions that
  also return the list of pushes issued to the device (`Effect`).

Definitions follow the source; theorems at the end settle the frozen claims.
-/

namespace Scoreline

/-- Python `int()` applied to a real number: truncation toward zero
(`int(2.7) = 2`, `int(-2.7) = -2`).  Floats are modelled as rationals. -/
def pyInt (q : ℚ) : ℤ := if q < 0 then ⌈q⌉ else ⌊q⌋

/-- Effect ids from `wled.py` (module-level constants). -/
def EFFECT_SOLID : ℕ := 0
def EFFECT_BREATHE : ℕ := 2
def EFFECT_SCANNER : ℕ := 16
def EFFECT_STROBE : ℕ := 18
def EFFECT_CHASE_2 : ℕ := 37
def EFFECT_FIRE : ℕ := 66

/-- `DIVIDER_PRESETS`: name -> (color, effect_id, speed, intensity). -/
def DIVIDER_PRESETS : List (String × (List ℤ × ℕ × ℤ × ℤ)) :=
  [("classic", ([200, 80, 0], EFFECT_SCANNER, 180, 200)),
   ("intense", ([255, 50, 0], EFFECT_FIRE, 128, 200)),
   ("ice", ([100, 150, 255], EFFECT_SCANNER, 180, 200)),
   ("pulse", ([200, 200, 200], EFFECT_BREATHE, 100, 128)),
   ("chaos", ([255, 100, 0], EFFECT_STROBE, 200, 128))]

/-- `WLEDConfig` from `wled.py` (defaults as in the dataclass). -/
structure WLEDConfig where
  host : String
  roofline_start : ℤ := 0
  roofline_end : ℤ := 629
  min_team_pct : ℚ := 1/20
  contested_zone_pixels : ℤ := 6
  dark_buffer_pixels : ℤ := 4
  transition_ms : ℤ := 500
  chase_intensity : ℤ := 190
  chase_speed : ℤ := 185
  divider_preset : String := "classic"
  divider_color : Option (List ℤ) := none
deriving DecidableEq, Repr

/-- `WLEDConfig.get_divider_settings`: preset lookup (falling back to
`classic`), with the optional color override.  Python treats an empty list as
falsy, so an empty `divider_color` also falls back to the preset color. -/
def WLEDConfig.get_divider_settings (cfg : WLEDConfig) : List ℤ × ℕ × ℤ × ℤ :=
  let preset := (DIVIDER_PRESETS.lookup cfg.divider_preset).getD
    ([200, 80, 0], EFFECT_SCANNER, 180, 200)
  match cfg.divider_color with
  | some c => if c ≠ [] then (c, preset.2.1, preset.2.2.1, preset.2.2.2) else preset
  | none => preset

/-- `total_pixels = end - start` (in `calculate_segments`). -/
def total_pixels (cfg : WLEDConfig) : ℤ := cfg.roofline_end - cfg.roofline_start

/-- `battle_zone = contested + dark_buffer * 2`. -/
def battle_zone (cfg : WLEDConfig) : ℤ :=
  cfg.contested_zone_pixels + cfg.dark_buffer_pixels * 2

/-- `clamped_pct = max(min_pct, min(1.0 - min_pct, home_win_pct))`
(the "minimum dignity" clamp). -/
def clamped_pct (cfg : WLEDConfig) (home_win_pct : ℚ) : ℚ :=
  max cfg.min_team_pct (min (1 - cfg.min_team_pct) home_win_pct)

/-- `home_pixels = int((total_pixels - battle_zone) * clamped_pct)`. -/
def home_pixels (cfg : WLEDConfig) (home_win_pct : ℚ) : ℤ :=
  pyInt ((total_pixels cfg - battle_zone cfg : ℤ) * clamped_pct cfg home_win_pct)

/-- `away_pixels = total_pixels - battle_zone - home_pixels`. -/
def away_pixels (cfg : WLEDConfig) (home_win_pct : ℚ) : ℤ :=
  total_pixels cfg - battle_zone cfg - home_pixels cfg home_win_pct

/-- Segment boundary `home_end = start + home_pixels`. -/
def home_end (cfg : WLEDConfig) (p : ℚ) : ℤ := cfg.roofline_start + home_pixels cfg p

def dark_left_start (cfg : WLEDConfig) (p : ℚ) : ℤ := home_end cfg p

def dark_left_end (cfg : WLEDConfig) (p : ℚ) : ℤ :=
  dark_left_start cfg p + cfg.dark_buffer_pixels

def jiggle_start (cfg : WLEDConfig) (p : ℚ) : ℤ := dark_left_end cfg p

def jiggle_end (cfg : WLEDConfig) (p : ℚ) : ℤ :=
  jiggle_start cfg p + cfg.contested_zone_pixels

def dark_right_start (cfg : WLEDConfig) (p : ℚ) : ℤ := jiggle_end cfg p

def dark_right_end (cfg : WLEDConfig) (p : ℚ) : ℤ :=
  dark_right_start cfg p + cfg.dark_buffer_pixels

def away_start (cfg : WLEDConfig) (p : ℚ) : ℤ := dark_right_end cfg p

/-- `tension = 1.0 - abs(home_win_pct - 0.5) * 2`. -/
def tension (p : ℚ) : ℚ := 1 - |p - 1/2| * 2

/-- `speed = int(base_speed + (tension * 15))`. -/
def chase_speed_for (cfg : WLEDConfig) (p : ℚ) : ℤ :=
  pyInt ((cfg.chase_speed : ℚ) + tension p * 15)

/-- One entry of the segment list pushed to the device.  Fields mirror the
JSON keys of the dicts built in `calculate_segments`; a key absent from a
given dict (deletion markers carry only `id` and `stop`) is `none`. -/
structure Segment where
  id : ℕ
  n : Option String := none
  seg_start : Option ℤ := none
  stop : ℤ
  grp : Option ℕ := none
  spc : Option ℕ := none
  seg_on : Option Bool := none
  bri : Option ℕ := none
  col : Option (List (List ℤ)) := none
  pal : Option ℕ := none
  fx : Option ℕ := none
  sx : Option ℤ := none
  ix : Option ℤ := none
  rev : Option Bool := none
  sel : Option Bool := none
deriving DecidableEq, Repr

/-- Append a segment built from the running slot counter (`next_id`, which in
the source always equals the length of the list built so far) when the guard
of the corresponding `if` block holds. -/
def appendIf (c : Bool) (l : List Segment) (f : ℕ → Segment) : List Segment :=
  if c then l ++ [f l.length] else l

def blackoutL_seg (cfg : WLEDConfig) (i : ℕ) : Segment :=
  { id := i, n := some "BLACKOUT-L", seg_start := some 0, stop := cfg.roofline_start,
    grp := some 1, spc := some 0, seg_on := some true, bri := some 255,
    col := some [[0, 0, 0], [0, 0, 0], [0, 0, 0]], fx := some EFFECT_SOLID,
    sel := some false }

def home_seg (cfg : WLEDConfig) (p : ℚ) (home_colors : List (List ℤ)) (i : ℕ) : Segment :=
  { id := i, n := some "HOME", seg_start := some cfg.roofline_start,
    stop := home_end cfg p, grp := some 1, spc := some 0, seg_on := some true,
    bri := some 255,
    col := some [home_colors.headI, home_colors.tail.headI, [0, 0, 0]],
    pal := some 0, fx := some EFFECT_CHASE_2, sx := some (chase_speed_for cfg p),
    ix := some cfg.chase_intensity, rev := some false, sel := some false }

def bufferL_seg (cfg : WLEDConfig) (p : ℚ) (i : ℕ) : Segment :=
  { id := i, n := some "BUFFER-L", seg_start := some (dark_left_start cfg p),
    stop := dark_left_end cfg p, grp := some 1, spc := some 0,
    seg_on := some true, bri := some 255,
    col := some [[0, 0, 0], [0, 0, 0], [0, 0, 0]], fx := some EFFECT_SOLID,
    sel := some false }

def divider_seg (cfg : WLEDConfig) (p : ℚ) (i : ℕ) : Segment :=
  { id := i, n := some "DIVIDER", seg_start := some (jiggle_start cfg p),
    stop := jiggle_end cfg p, grp := some 1, spc := some 0,
    seg_on := some true, bri := some 255,
    col := some [cfg.get_divider_settings.1, [0, 0, 0], [0, 0, 0]],
    fx := some cfg.get_divider_settings.2.1,
    sx := some cfg.get_divider_settings.2.2.1,
    ix := some cfg.get_divider_settings.2.2.2, rev := some false,
    sel := some false }

def bufferR_seg (cfg : WLEDConfig) (p : ℚ) (i : ℕ) : Segment :=
  { id := i, n := some "BUFFER-R", seg_start := some (dark_right_start cfg p),
    stop := dark_right_end cfg p, grp := some 1, spc := some 0,
    seg_on := some true, bri := some 255,
    col := some [[0, 0, 0], [0, 0, 0], [0, 0, 0]], fx := some EFFECT_SOLID,
    sel := some false }

def away_seg (cfg : WLEDConfig) (p : ℚ) (away_colors : List (List ℤ)) (i : ℕ) : Segment :=
  { id := i, n := some "AWAY", seg_start := some (away_start cfg p),
    stop := cfg.roofline_end, grp := some 1, spc := some 0, seg_on := some true,
    bri := some 255,
    col := some [away_colors.headI, away_colors.tail.headI, [0, 0, 0]],
    pal := some 0, fx := some EFFECT_CHASE_2, sx := some (chase_speed_for cfg p),
    ix := some cfg.chase_intensity, rev := some true, sel := some false }

def blackoutR_seg (cfg : WLEDConfig) (i : ℕ) : Segment :=
  { id := i, n := some "BLACKOUT-R", seg_start := some cfg.roofline_end,
    stop := 9999, grp := some 1, spc := some 0, seg_on := some true,
    bri := some 255, col := some [[0, 0, 0], [0, 0, 0], [0, 0, 0]],
    fx := some EFFECT_SOLID, sel := some false }

/-- Deletion marker: `{"id": extra_id, "stop": 0}` (stop=0 deletes the slot). -/
def delete_seg (i : ℕ) : Segment := { id := i, stop := 0 }

/-- `WLEDController.calculate_segments`.  The segment list is built exactly
as in the source: conditional blocks appending one dict each while `next_id`
(always the current length) advances, the unconditional BLACKOUT-R block, and
finally deletion markers for `range(next_id, 16)`. -/
def calculate_segments (cfg : WLEDConfig) (home_win_pct : ℚ)
    (home_colors away_colors : List (List ℤ)) : List Segment :=
  let s1 := appendIf (0 < cfg.roofline_start) [] (blackoutL_seg cfg)
  let s2 := appendIf (0 < home_pixels cfg home_win_pct) s1
    (home_seg cfg home_win_pct home_colors)
  let s3 := appendIf (0 < cfg.dark_buffer_pixels) s2 (bufferL_seg cfg home_win_pct)
  let s4 := appendIf (0 < cfg.contested_zone_pixels) s3 (divider_seg cfg home_win_pct)
  let s5 := appendIf (0 < cfg.dark_buffer_pixels) s4 (bufferR_seg cfg home_win_pct)
  let s6 := appendIf (0 < away_pixels cfg home_win_pct) s5
    (away_seg cfg home_win_pct away_colors)
  let s7 := s6 ++ [blackoutR_seg cfg s6.length]
  s7 ++ (List.range' s7.length (16 - s7.length)).map delete_seg

/-! ## DeviceOrchestrator (`src/app/main.py`) -/

/-- `GameInfo` from `espn.py` (scores as ints, probabilities as ℚ). -/
structure GameInfo where
  game_id : String
  status : String
  home_team : String
  away_team : String
  home_score : ℤ
  away_score : ℤ
  home_win_pct : ℚ
  away_win_pct : ℚ
  period : String
  clock : String
  last_play : Option String := none
deriving DecidableEq, Repr

/-- The `inst.game` dict: `{league, game_id, last_info, last_status}`. -/
structure GameRef where
  league : String
  game_id : String
  last_info : Option GameInfo
  last_status : String
deriving DecidableEq, Repr

/-- `InstanceState` from `main.py`.  The `controller` attribute
(`Optional[WLEDController]`) is modelled by its presence.  The source field
names `start`/`end` become `strip_start`/`strip_end` (`end` is reserved). -/
structure InstanceState where
  host : String
  strip_start : ℤ
  strip_end : ℤ
  hasController : Bool := false
  game : Option GameRef := none
  previous_preset : Option ℤ := none
  simulating : Bool := false
  sim_saved_preset : Option ℤ := none
deriving DecidableEq, Repr

/-- A push issued to the device through `WLEDController` during an
operation, in order. -/
inductive Effect where
  | setGameMode (pct : ℚ) (home_colors away_colors : List (List ℤ))
  | restorePreset (id : ℤ)
  | turnOff
  | flashColors (colors : List (List ℤ)) (count : ℕ)
  | fadeOff (duration_s : ℚ)
deriving DecidableEq, Repr

def Effect.isRestore : Effect → Bool
  | .restorePreset _ => true
  | _ => false

/-- `watch_game_on_instance` (POST `/api/instance/{host}/watch`): stop a
running simulation without restoring, ensure a controller, capture the
current device preset, and set the game with `last_status` assumed `"in"`.
`current_preset` is the result of `get_current_preset()`. -/
def watch_game_on_instance (s : InstanceState) (league game_id : String)
    (current_preset : Option ℤ) : InstanceState × List Effect :=
  let s := if s.simulating then
    { s with simulating := false, sim_saved_preset := none } else s
  let s := { s with hasController := true, previous_preset := current_preset,
                    game := some ⟨league, game_id, none, "in"⟩ }
  (s, [])

/-- The auto-watch start in `auto_watch_all`: only fires on an instance with
no game; ensures a controller, captures the preset, sets the game with
`last_status = "in"`.  It does not touch the `simulating` flag. -/
def auto_watch_start (s : InstanceState) (league game_id : String)
    (current_preset : Option ℤ) : InstanceState × List Effect :=
  if s.game.isSome then (s, [])
  else
    ({ s with hasController := true, previous_preset := current_preset,
              game := some ⟨league, game_id, none, "in"⟩ }, [])

/-- The gray 50/50 colors pushed by `start_sim`. -/
def sim_gray : List (List ℤ) := [[100, 100, 100], [60, 60, 60]]

/-- `start_sim` (POST `/api/instance/{host}/sim/start`): no-op when already
simulating; otherwise ensures a controller, saves the current preset as the
simulation preset, sets the flag, and renders a neutral 50/50 display.  When
the instance is watching a live game only a warning is returned — the game
reference is left in place. -/
def start_sim (s : InstanceState) (current_preset : Option ℤ) :
    InstanceState × List Effect :=
  if s.simulating then (s, [])
  else
    ({ s with hasController := true, sim_saved_preset := current_preset,
              simulating := true },
     [Effect.setGameMode (1/2) sim_gray sim_gray])

/-- `stop_sim`: restore the saved preset (or turn off) and clear the flag
and the saved preset. -/
def stop_sim (s : InstanceState) : InstanceState × List Effect :=
  if ¬s.simulating then (s, [])
  else
    let eff : List Effect :=
      if s.hasController then
        match s.sim_saved_preset with
        | some p => [Effect.restorePreset p]
        | none => [Effect.turnOff]
      else []
    ({ s with simulating := false, sim_saved_preset := none }, eff)

/-- `stop_instance` (POST `/api/instance/{host}/stop`): drop the game and
turn the lights off. -/
def stop_instance (s : InstanceState) : InstanceState × List Effect :=
  ({ s with game := none },
   if s.hasController then [Effect.turnOff] else [])

/-- Winner determination in `handle_game_ended` (lines 322-332): higher
final score wins; an equal score is the explicit `"TIE"` branch. -/
def determine_winner (gi : GameInfo) : String :=
  if gi.home_score > gi.away_score then gi.home_team
  else if gi.away_score > gi.home_score then gi.away_team
  else "TIE"

/-- Winner colors in `handle_game_ended`: colors of the winning team,
home-team colors on a tie.  `get_team_colors` (from `teams.py`, a pure
config lookup) is passed as a function. -/
def winner_colors (get_team_colors : String → String → List (List ℤ))
    (league : String) (gi : GameInfo) : List (List ℤ) :=
  if gi.home_score > gi.away_score then get_team_colors league gi.home_team
  else if gi.away_score > gi.home_score then get_team_colors league gi.away_team
  else get_team_colors league gi.home_team

/-- Per-instance post-game settings (`get_instance_post_game_settings`),
with the defaults read in `handle_game_ended`. -/
structure PostGameSettings where
  action : String := "flash_then_off"
  preset_id : Option ℤ := none
  fade_duration_s : ℚ := 3
  flash_count : ℕ := 3
  flash_duration_ms : ℤ := 500
deriving DecidableEq, Repr

/-- The dispatch on `action` inside the `try` block of `handle_game_ended`.
An action string matching no branch pushes nothing. -/
def post_game_effects (s : InstanceState) (wcolors : List (List ℤ))
    (pg : PostGameSettings) : List Effect :=
  if pg.action = "off" then [Effect.turnOff]
  else if pg.action = "fade_off" then [Effect.fadeOff pg.fade_duration_s]
  else if pg.action = "flash_then_off" then
    [Effect.flashColors wcolors pg.flash_count, Effect.fadeOff pg.fade_duration_s]
  else if pg.action = "restore" then
    match s.previous_preset with
    | some p => [Effect.restorePreset p]
    | none => [Effect.turnOff]
  else if pg.action = "preset" then
    match pg.preset_id with
    | some p => [Effect.restorePreset p]
    | none => [Effect.turnOff]
  else []

/-- `handle_game_ended`: returns early (touching nothing) without a
controller; reads `inst.game["league"]` (a missing game would raise in
Python, modelled as the untouched state); dispatches the configured action
inside `try/except` — `action_raises` models an exception escaping the
dispatched pushes, which the handler catches and logs — and in every case
that reaches the dispatch clears `game` and `previous_preset`. -/
def handle_game_ended (s : InstanceState) (gi : GameInfo)
    (get_team_colors : String → String → List (List ℤ))
    (pg : PostGameSettings) (action_raises : Bool) :
    InstanceState × List Effect :=
  if ¬s.hasController then (s, [])
  else
    match s.game with
    | none => (s, [])
    | some g =>
      let wcolors := winner_colors get_team_colors g.league gi
      let effects := if action_raises then [] else post_game_effects s wcolors pg
      ({ s with game := none, previous_preset := none }, effects)

/-! ### Reconciliation (`check_wled_simulation_state` / `list_instances`) -/

/-- The part of the device-reported state that the reconciliation check
reads: the power flag and the names of the active segments.  A failed pull
(`get_state` returns `{}` on any error, and the outer `try` also preserves
state on an exception) is `none`. -/
structure WledReply where
  isOn : Bool
  segNames : List String
deriving DecidableEq, Repr

/-- `check_wled_simulation_state`: `False` without a controller; a failed or
empty query yields `True` (preserve state); a device reporting power off
yields `False`; otherwise `True` exactly when a segment named HOME or AWAY
is present. -/
def check_wled_simulation_state (hasController : Bool)
    (reply : Option WledReply) : Bool :=
  if ¬hasController then false
  else
    match reply with
    | none => true
    | some w =>
      if ¬w.isOn then false
      else if "HOME" ∈ w.segNames ∨ "AWAY" ∈ w.segNames then true
      else false

/-- The sync check in `list_instances`: a simulating instance whose check
comes back false has its `simulating` flag cleared; nothing is pushed and no
preset is restored ("Don't restore preset here - just reflect reality"). -/
def reconcile_sim (s : InstanceState) (reply : Option WledReply) :
    InstanceState × List Effect :=
  if s.simulating ∧ ¬check_wled_simulation_state s.hasController reply then
    ({ s with simulating := false }, [])
  else (s, [])

/-! ### Polling (`poll_all_games`) -/

/-- The dict key `f"{league}:{game_id}"` used by `games_to_poll`. -/
def gameKey (league game_id : String) : String := league ++ ":" ++ game_id

/-- `key.split(":", 1)`: the text before the first `':'` and everything
after it.  (A key without a colon would make the unpacking in the source
raise; every key built by `gameKey` contains one.) -/
def py_split_once (s : String) : String × String :=
  (⟨s.data.takeWhile (· ≠ ':')⟩, ⟨(s.data.dropWhile (· ≠ ':')).drop 1⟩)

/-- The `(league, game_id)` pairs of the instances a poll tick considers:
those with a game and a controller (`if inst.game and inst.controller`). -/
def tracked_pairs (insts : List InstanceState) : List (String × String) :=
  insts.filterMap fun i =>
    match i.game with
    | some g => if i.hasController then some (g.league, g.game_id) else none
    | none => none

/-- First-occurrence de-duplication, as insertion into a Python dict. -/
def distincts {α : Type} [DecidableEq α] (l : List α) : List α :=
  l.foldl (fun acc x => if x ∈ acc then acc else acc ++ [x]) []

/-- The keys of `games_to_poll`, i.e. one entry per ScoreFeed call the tick
makes (`get_game_detail` is called once per key). -/
def poll_call_keys (insts : List InstanceState) : List String :=
  distincts ((tracked_pairs insts).map fun pr => gameKey pr.1 pr.2)

/-- The snapshot an instance tracking `(league, game_id)` is updated from:
the feed result for its group's key, split back into league and id. -/
def snapshot_for (feed : String → String → Option GameInfo)
    (league game_id : String) : Option GameInfo :=
  let pr := py_split_once (gameKey league game_id)
  feed pr.1 pr.2

/-- The per-instance body of the poll loop (lines 205-223) for one fetched
snapshot: a transition into `"post"` hands off to `handle_game_ended`
(returning `true` as the second component) and leaves the tracking dict
alone (`continue`); otherwise the tracking dict is updated and an
in-progress game is re-rendered. -/
def poll_update_inst (s : InstanceState) (game : GameInfo)
    (home_colors away_colors : List (List ℤ)) :
    InstanceState × Bool × List Effect :=
  match s.game with
  | none => (s, false, [])
  | some g =>
    if game.status = "post" ∧ g.last_status ≠ "post" then (s, true, [])
    else
      let s := { s with game := some { g with last_status := game.status,
                                              last_info := some game } }
      if game.status = "in" then
        (s, false, [Effect.setGameMode game.home_win_pct home_colors away_colors])
      else (s, false, [])

/-! ### Concrete data used by counterexamples and witnesses -/

/-- A fresh instance, as `init_instances` creates it from config. -/
def demoIdle : InstanceState := { host := "wled-1", strip_start := 0, strip_end := 629 }

/-- An instance in a running simulation (reached by `start_sim` from idle). -/
def demoSim : InstanceState :=
  { host := "wled-1", strip_start := 0, strip_end := 629, hasController := true,
    simulating := true, sim_saved_preset := some 3 }

/-- An instance watching a game, with a controller. -/
def demoWatching : InstanceState :=
  { host := "wled-1", strip_start := 0, strip_end := 629, hasController := true,
    game := some ⟨"nfl", "401547500", none, "in"⟩, previous_preset := some 2 }

/-- The worked scenario of the spec: 300 pixels, contested 6, buffers 4,
minimum share 5%. -/
def cfg300 : WLEDConfig := { host := "wled-1", roofline_start := 0, roofline_end := 300 }

/-- A short strip (20 pixels) with the default battle zone (14 pixels). -/
def cfg20 : WLEDConfig := { host := "wled-1", roofline_start := 0, roofline_end := 20 }

/-- A degenerate strip (4 pixels) narrower than the default battle zone. -/
def cfg4 : WLEDConfig := { host := "wled-1", roofline_start := 0, roofline_end := 4 }

/-- Two devices watching the same game. -/
def demoInsts : List InstanceState :=
  [{ host := "wled-1", strip_start := 0, strip_end := 629, hasController := true,
     game := some ⟨"nfl", "401547500", none, "in"⟩ },
   { host := "wled-2", strip_start := 0, strip_end := 300, hasController := true,
     game := some ⟨"nfl", "401547500", none, "in"⟩ }]

/-- A finished, tied game. -/
def demoTieGame : GameInfo :=
  { game_id := "401547500", status := "post", home_team := "GB", away_team := "CHI",
    home_score := 24, away_score := 24, home_win_pct := 1/2, away_win_pct := 1/2,
    period := "Final", clock := "0:00" }

/-- A color lookup standing in for `get_team_colors`. -/
def demoColors (_league team : String) : List (List ℤ) :=
  if team = "GB" then [[24, 48, 40], [255, 184, 28]] else [[11, 22, 42], [200, 56, 3]]

/-! ## Theorems -/

/-! ### Arithmetic facts about the renderer -/

theorem pyInt_eq_floor (q : ℚ) (h : 0 ≤ q) : pyInt q = ⌊q⌋ := by
  unfold pyInt
  rw [if_neg (not_lt.mpr h)]

theorem clamped_pct_lb (cfg : WLEDConfig) (p : ℚ) :
    cfg.min_team_pct ≤ clamped_pct cfg p :=
  le_max_left _ _

theorem clamped_pct_ub (cfg : WLEDConfig) (p : ℚ)
    (hm : cfg.min_team_pct ≤ 1 - cfg.min_team_pct) :
    clamped_pct cfg p ≤ 1 - cfg.min_team_pct :=
  max_le hm (min_le_left _ _)

theorem clamped_pct_mono (cfg : WLEDConfig) {p1 p2 : ℚ} (h : p1 ≤ p2) :
    clamped_pct cfg p1 ≤ clamped_pct cfg p2 :=
  max_le_max le_rfl (min_le_min le_rfl h)

/-- With a battle zone no wider than the strip, `int()` in the home-pixel
computation is a floor of a non-negative quantity. -/
theorem home_pixels_eq_floor (cfg : WLEDConfig) (p : ℚ)
    (hbz : battle_zone cfg ≤ total_pixels cfg) (hm0 : 0 < cfg.min_team_pct) :
    home_pixels cfg p
      = ⌊((total_pixels cfg - battle_zone cfg : ℤ) : ℚ) * clamped_pct cfg p⌋ := by
  unfold home_pixels
  refine pyInt_eq_floor _ (mul_nonneg ?_ ?_)
  · exact_mod_cast sub_nonneg.mpr hbz
  · exact le_trans hm0.le (clamped_pct_lb cfg p)

/-! ### Membership in the built segment list -/

theorem mem_appendIf_of_mem {c : Bool} {l : List Segment} {f : ℕ → Segment}
    {x : Segment} (h : x ∈ l) : x ∈ appendIf c l f := by
  unfold appendIf
  split
  · exact List.mem_append_left _ h
  · exact h

theorem self_mem_appendIf {c : Bool} {l : List Segment} {f : ℕ → Segment}
    (hc : c = true) : f l.length ∈ appendIf c l f := by
  unfold appendIf
  rw [hc]
  simp

/-- If the home condition holds, the HOME segment is in the plan. -/
theorem home_seg_mem (cfg : WLEDConfig) (p : ℚ)
    (hcols acols : List (List ℤ)) (hhome : 0 < home_pixels cfg p) :
    ∃ i, home_seg cfg p hcols i ∈ calculate_segments cfg p hcols acols := by
  simp only [calculate_segments]
  exact ⟨_, List.mem_append_left _ (List.mem_append_left _
    (mem_appendIf_of_mem (mem_appendIf_of_mem (mem_appendIf_of_mem
      (mem_appendIf_of_mem (self_mem_appendIf (decide_eq_true hhome)))))))⟩

/-- If the away condition holds, the AWAY segment is in the plan. -/
theorem away_seg_mem (cfg : WLEDConfig) (p : ℚ)
    (hcols acols : List (List ℤ)) (haway : 0 < away_pixels cfg p) :
    ∃ i, away_seg cfg p acols i ∈ calculate_segments cfg p hcols acols := by
  simp only [calculate_segments]
  exact ⟨_, List.mem_append_left _ (List.mem_append_left _
    (self_mem_appendIf (decide_eq_true haway)))⟩

/-- Dignity, lower half: `(totalPixels − battleZone) × m ≥ 1` forces at
least one home pixel. -/
theorem home_pixels_pos (cfg : WLEDConfig) (p : ℚ)
    (hm0 : 0 < cfg.min_team_pct)
    (hdig : 1 ≤ ((total_pixels cfg - battle_zone cfg : ℤ) : ℚ) * cfg.min_team_pct) :
    0 < home_pixels cfg p := by
  set A : ℚ := ((total_pixels cfg - battle_zone cfg : ℤ) : ℚ) with hA
  have hApos : 0 < A := by
    by_contra hle
    push_neg at hle
    have : A * cfg.min_team_pct ≤ 0 :=
      mul_nonpos_of_nonpos_of_nonneg hle hm0.le
    linarith
  have hbz : battle_zone cfg ≤ total_pixels cfg := by
    have : (0:ℚ) < ((total_pixels cfg - battle_zone cfg : ℤ) : ℚ) := hApos
    exact_mod_cast sub_nonneg.mp (le_of_lt (by exact_mod_cast this))
  rw [home_pixels_eq_floor cfg p hbz hm0, ← hA]
  have h1 : (1:ℚ) ≤ A * clamped_pct cfg p :=
    le_trans hdig (mul_le_mul_of_nonneg_left (clamped_pct_lb cfg p) hApos.le)
  have h2 : (1:ℤ) ≤ ⌊A * clamped_pct cfg p⌋ :=
    Int.le_floor.mpr (by exact_mod_cast h1)
  omega

/-- Dignity, upper half: `(totalPixels − battleZone) × m ≥ 1` also leaves at
least one away pixel. -/
theorem away_pixels_pos (cfg : WLEDConfig) (p : ℚ)
    (hm0 : 0 < cfg.min_team_pct) (hm1 : cfg.min_team_pct < 1/2)
    (hdig : 1 ≤ ((total_pixels cfg - battle_zone cfg : ℤ) : ℚ) * cfg.min_team_pct) :
    0 < away_pixels cfg p := by
  set A : ℚ := ((total_pixels cfg - battle_zone cfg : ℤ) : ℚ) with hA
  have hApos : 0 < A := by
    by_contra hle
    push_neg at hle
    have : A * cfg.min_team_pct ≤ 0 :=
      mul_nonpos_of_nonpos_of_nonneg hle hm0.le
    linarith
  have hbz : battle_zone cfg ≤ total_pixels cfg := by
    have : (0:ℚ) < ((total_pixels cfg - battle_zone cfg : ℤ) : ℚ) := hApos
    exact_mod_cast sub_nonneg.mp (le_of_lt (by exact_mod_cast this))
  have hub : clamped_pct cfg p ≤ 1 - cfg.min_team_pct :=
    clamped_pct_ub cfg p (by linarith)
  have hchain : A * clamped_pct cfg p ≤ A - 1 := by
    have := mul_le_mul_of_nonneg_left hub hApos.le
    nlinarith
  have hAsplit : A = ((total_pixels cfg : ℤ) : ℚ) - ((battle_zone cfg : ℤ) : ℚ) := by
    rw [hA]; push_cast; ring
  have hfloor : home_pixels cfg p ≤ total_pixels cfg - battle_zone cfg - 1 := by
    rw [home_pixels_eq_floor cfg p hbz hm0]
    have h1 : (A * clamped_pct cfg p : ℚ) ≤ ((total_pixels cfg - battle_zone cfg - 1 : ℤ) : ℚ) := by
      push_cast
      linarith
    exact (Int.floor_le_floor h1).trans_eq (Int.floor_intCast _)
  unfold away_pixels
  omega

/-- The away segment really spans `away_pixels` pixels: its start is below
the strip end exactly when `away_pixels` is positive. -/
theorem away_start_lt_end (cfg : WLEDConfig) (p : ℚ)
    (haway : 0 < away_pixels cfg p) :
    away_start cfg p < cfg.roofline_end := by
  unfold away_start dark_right_end dark_right_start jiggle_end jiggle_start
    dark_left_end dark_left_start home_end at *
  unfold away_pixels battle_zone total_pixels at haway
  omega

/-- Appending a segment whose id is the running `next_id` (the length so
far) keeps the ids equal to `0, 1, 2, …`. -/
theorem ids_append_single {l : List Segment} {f : ℕ → Segment}
    (hf : (f l.length).id = l.length)
    (h : l.map Segment.id = List.range l.length) :
    (l ++ [f l.length]).map Segment.id = List.range (l ++ [f l.length]).length := by
  rw [List.map_append, h, List.length_append]
  simp [hf, List.range_succ]

theorem ids_appendIf {c : Bool} {l : List Segment} {f : ℕ → Segment}
    (hf : ∀ n, (f n).id = n)
    (h : l.map Segment.id = List.range l.length) :
    (appendIf c l f).map Segment.id = List.range (appendIf c l f).length := by
  unfold appendIf
  split
  · exact ids_append_single (hf _) h
  · exact h

theorem appendIf_length_le (c : Bool) (l : List Segment) (f : ℕ → Segment) :
    (appendIf c l f).length ≤ l.length + 1 := by
  unfold appendIf
  split <;> simp

/-! ### Poll keys: the dict key encodes the (league, game id) pair -/

theorem gameKey_data (l g : String) :
    (gameKey l g).data = l.data ++ ':' :: g.data := by
  unfold gameKey
  rw [String.data_append, String.data_append, List.append_assoc]
  rfl

theorem append_colon_inj : ∀ (a1 : List Char) {a2 b1 b2 : List Char},
    ':' ∉ a1 → ':' ∉ a2 → a1 ++ ':' :: b1 = a2 ++ ':' :: b2 →
    a1 = a2 ∧ b1 = b2 := by
  intro a1
  induction a1 with
  | nil =>
    intro a2 b1 b2 _ h2 heq
    cases a2 with
    | nil => simpa using heq
    | cons c t =>
      simp only [List.nil_append, List.cons_append, List.cons.injEq] at heq
      exact absurd (heq.1 ▸ List.mem_cons_self ':' t) (heq.1 ▸ h2)
  | cons c t ih =>
    intro a2 b1 b2 h1 h2 heq
    cases a2 with
    | nil =>
      simp only [List.cons_append, List.nil_append, List.cons.injEq] at heq
      exact absurd (heq.1 ▸ List.mem_cons_self c t) (fun hmm => h1 (heq.1 ▸ hmm))
    | cons d u =>
      simp only [List.cons_append, List.cons.injEq] at heq
      obtain ⟨ht, hb⟩ := ih (fun hm => h1 (List.mem_cons_of_mem c hm))
        (fun hm => h2 (List.mem_cons_of_mem d hm)) heq.2
      exact ⟨by rw [heq.1, ht], hb⟩

theorem gameKey_inj {l1 g1 l2 g2 : String}
    (h1 : ':' ∉ l1.data) (h2 : ':' ∉ l2.data)
    (heq : gameKey l1 g1 = gameKey l2 g2) : l1 = l2 ∧ g1 = g2 := by
  have hd : l1.data ++ ':' :: g1.data = l2.data ++ ':' :: g2.data := by
    rw [← gameKey_data, ← gameKey_data, heq]
  obtain ⟨ha, hb⟩ := append_colon_inj l1.data h1 h2 hd
  exact ⟨String.ext ha, String.ext hb⟩

theorem takeWhile_colon (a b : List Char) (h : ':' ∉ a) :
    (a ++ ':' :: b).takeWhile (· ≠ ':') = a
    ∧ (a ++ ':' :: b).dropWhile (· ≠ ':') = ':' :: b := by
  induction a with
  | nil => simp [List.takeWhile, List.dropWhile]
  | cons c t ih =>
    have hc : c ≠ ':' := fun hcc => h (hcc ▸ List.mem_cons_self c t)
    obtain ⟨h1, h2⟩ := ih (fun hm => h (List.mem_cons_of_mem c hm))
    simp only [ne_eq, decide_not] at h1 h2 ⊢
    simp [List.takeWhile_cons, List.dropWhile_cons, hc, h1, h2]

/-- Splitting the dict key at the first colon recovers the league and game
id, provided the league id contains no colon. -/
theorem py_split_once_gameKey (l g : String) (h : ':' ∉ l.data) :
    py_split_once (gameKey l g) = (l, g) := by
  unfold py_split_once
  rw [gameKey_data]
  obtain ⟨h1, h2⟩ := takeWhile_colon l.data g.data h
  rw [h1, h2]
  rfl

theorem foldl_insert_map {α β : Type} [DecidableEq α] [DecidableEq β]
    (f : α → β) (P : α → Prop)
    (hinj : ∀ x y, P x → P y → f x = f y → x = y) :
    ∀ (l acc : List α), (∀ x ∈ l, P x) → (∀ x ∈ acc, P x) →
      List.foldl (fun acc x => if x ∈ acc then acc else acc ++ [x])
          (acc.map f) (l.map f)
        = (List.foldl (fun acc x => if x ∈ acc then acc else acc ++ [x])
            acc l).map f := by
  intro l
  induction l with
  | nil => intro acc _ _; rfl
  | cons x t ih =>
    intro acc hl hacc
    simp only [List.map_cons, List.foldl_cons]
    have hmem : (f x ∈ acc.map f) ↔ (x ∈ acc) := by
      constructor
      · intro hm
        obtain ⟨y, hy, hfy⟩ := List.mem_map.mp hm
        rwa [hinj y x (hacc y hy) (hl x (List.mem_cons_self x t)) hfy] at hy
      · exact fun hm => List.mem_map_of_mem f hm
    by_cases hx : x ∈ acc
    · rw [if_pos (hmem.mpr hx), if_pos hx]
      exact ih acc (fun z hz => hl z (List.mem_cons_of_mem x hz)) hacc
    · rw [if_neg (fun hmm => hx (hmem.mp hmm)), if_neg hx,
        show [f x] = List.map f [x] from rfl, ← List.map_append]
      refine ih (acc ++ [x]) (fun z hz => hl z (List.mem_cons_of_mem x hz))
        (fun z hz => ?_)
      rcases List.mem_append.mp hz with hz | hz
      · exact hacc z hz
      · rcases List.mem_singleton.mp hz with rfl
        exact hl z (List.mem_cons_self z t)

/-- An injective-on-`P` encoding does not change the number of distinct
entries. -/
theorem distincts_map_length {α β : Type} [DecidableEq α] [DecidableEq β]
    (f : α → β) (P : α → Prop)
    (hinj : ∀ x y, P x → P y → f x = f y → x = y)
    (l : List α) (hl : ∀ x ∈ l, P x) :
    (distincts (l.map f)).length = (distincts l).length := by
  have h := foldl_insert_map f P hinj l [] hl (by simp)
  simp only [List.map_nil] at h
  unfold distincts
  rw [h, List.length_map]

/-- Membership in the tracked pairs comes from a tracked instance. -/
theorem tracked_pairs_sound (insts : List InstanceState)
    (pr : String × String) (hpr : pr ∈ tracked_pairs insts) :
    ∃ i ∈ insts, ∃ g, i.game = some g
      ∧ pr = (g.league, g.game_id) ∧ i.hasController = true := by
  obtain ⟨i, hi, hmap⟩ := List.mem_filterMap.mp hpr
  cases hg : i.game with
  | none => rw [hg] at hmap; simp at hmap
  | some g =>
    rw [hg] at hmap
    by_cases hc : i.hasController
    · simp only [hc, if_true] at hmap
      rcases Option.some.injEq _ _ ▸ hmap with rfl
      exact ⟨i, hi, g, hg, by simp_all, hc⟩
    · simp [hc] at hmap

/-! ### The claims -/

/-- **C2** — For every winPct in [0,1] and every display config
(contested `c ≥ 0`, dark buffer `d ≥ 0` applied twice, minimum share
`m ∈ (0, 0.5)`), the renderer's pixel accounting
`homePixels + awayPixels + 2*d + c` sums exactly to
`totalPixels = end − start`. -/
theorem c2_pixel_sum (cfg : WLEDConfig) (p : ℚ)
    (hp0 : 0 ≤ p) (hp1 : p ≤ 1)
    (hc : 0 ≤ cfg.contested_zone_pixels) (hd : 0 ≤ cfg.dark_buffer_pixels)
    (hm0 : 0 < cfg.min_team_pct) (hm1 : cfg.min_team_pct < 1/2) :
    home_pixels cfg p + away_pixels cfg p + 2 * cfg.dark_buffer_pixels
      + cfg.contested_zone_pixels = cfg.roofline_end - cfg.roofline_start := by
  unfold away_pixels battle_zone total_pixels
  ring

/-- Witness for C2 at the spec's worked scenario (300 pixels, c=6, d=4,
m=0.05, winPct=0.7): the sum is 300, and indeed homePixels = 200. -/
theorem c2_pixel_sum_witness :
    (home_pixels cfg300 (7/10) + away_pixels cfg300 (7/10)
        + 2 * cfg300.dark_buffer_pixels + cfg300.contested_zone_pixels
      = cfg300.roofline_end - cfg300.roofline_start)
    ∧ home_pixels cfg300 (7/10) = 200 :=
  ⟨c2_pixel_sum cfg300 (7/10) (by norm_num) (by norm_num) (by decide) (by decide)
    (by norm_num [cfg300]) (by norm_num [cfg300]),
   by norm_num [home_pixels, pyInt, clamped_pct, total_pixels, battle_zone, cfg300]⟩

/-- **C1 counterexample** — the mutual-exclusion invariant fails: starting a
simulation on an instance that is watching a game does not exit the watching
state; afterwards the instance has both a non-null game reference and the
simulating flag set. -/
theorem c1_counterexample :
    ((start_sim (watch_game_on_instance demoIdle "nfl" "401547500" none).1 none).1.game
        = some ⟨"nfl", "401547500", none, "in"⟩)
    ∧ (start_sim (watch_game_on_instance demoIdle "nfl" "401547500" none).1
        none).1.simulating = true := by
  constructor <;> rfl

/-- **C1 (amended)** — a manual watch command while Simulating clears the
simulating flag and pushes nothing (in particular restores no preset); but
entering Simulating preserves the game reference (only a warning is issued)
and pushes at most the neutral render (never a preset restore), and
auto-watch entry leaves the simulating flag unchanged — so a device can hold
a non-null game reference and the simulating flag simultaneously. -/
theorem c1_amended (s : InstanceState) (league game_id : String)
    (p q : Option ℤ) :
    ((watch_game_on_instance s league game_id p).1.simulating = false
      ∧ (watch_game_on_instance s league game_id p).2 = [])
    ∧ ((start_sim s q).1.game = s.game
      ∧ ((start_sim s q).2 = []
        ∨ (start_sim s q).2 = [Effect.setGameMode (1/2) sim_gray sim_gray]))
    ∧ (auto_watch_start s league game_id p).1.simulating = s.simulating := by
  unfold watch_game_on_instance start_sim auto_watch_start
  refine ⟨⟨?_, ?_⟩, ⟨?_, ?_⟩, ?_⟩ <;>
    · cases hs : s.simulating <;> cases hg : s.game <;> simp [hs, hg]

/-- **C5** — reconciliation of a simulating device with a controller: a
failed or empty device-state query changes nothing (state preserved, nothing
pushed); with an affirmative reply the simulating flag ends up cleared
exactly when the device reports power off or no segment named HOME or AWAY
(or it was already clear); and the reconciliation never pushes anything —
in particular it restores no preset, and the saved preset is untouched. -/
theorem c5_no_downgrade_on_failure (s : InstanceState)
    (hctrl : s.hasController = true) :
    reconcile_sim s none = (s, [])
    ∧ (∀ w : WledReply,
        ((reconcile_sim s (some w)).1.simulating = false ↔
            (s.simulating = false ∨ w.isOn = false
              ∨ ("HOME" ∉ w.segNames ∧ "AWAY" ∉ w.segNames)))
        ∧ (reconcile_sim s (some w)).1.sim_saved_preset = s.sim_saved_preset
        ∧ (reconcile_sim s (some w)).2 = []) := by
  unfold reconcile_sim check_wled_simulation_state
  constructor
  · simp [hctrl]
  · intro w
    by_cases hsim : s.simulating <;>
      by_cases hon : w.isOn <;>
        by_cases hh : "HOME" ∈ w.segNames <;>
          by_cases ha : "AWAY" ∈ w.segNames <;>
            simp [hctrl, hsim, hon, hh, ha]

/-- Witness for C5: a concrete simulating instance; a failed pull leaves it
untouched, and a reply with the device off clears the flag while leaving the
saved preset alone. -/
theorem c5_no_downgrade_on_failure_witness :
    reconcile_sim demoSim none = (demoSim, [])
    ∧ ((reconcile_sim demoSim (some ⟨false, []⟩)).1.simulating = false
      ∧ (reconcile_sim demoSim (some ⟨false, []⟩)).1.sim_saved_preset = some 3) :=
  have h := c5_no_downgrade_on_failure demoSim rfl
  ⟨h.1, ((h.2 ⟨false, []⟩).1).mpr (Or.inr (Or.inl rfl)),
    ((h.2 ⟨false, []⟩).2.1).trans rfl⟩

/-- **C6** — for every configured post-game action (including unrecognized
action strings) and even when the dispatched action raises, the post-game
handler of an instance that has a controller and a tracked game clears the
game reference and the captured previous preset — the device returns to
Idle. -/
theorem c6_post_game_clears (s : InstanceState) (gi : GameInfo)
    (f : String → String → List (List ℤ)) (pg : PostGameSettings)
    (raises : Bool) (hctrl : s.hasController = true) (hg : s.game.isSome) :
    (handle_game_ended s gi f pg raises).1.game = none
    ∧ (handle_game_ended s gi f pg raises).1.previous_preset = none := by
  unfold handle_game_ended
  cases hgame : s.game with
  | none => simp [hgame] at hg
  | some g => simp [hctrl, hgame]

/-- Witness for C6: a watching instance whose `restore` action raises is
still returned to Idle. -/
theorem c6_post_game_clears_witness :
    (handle_game_ended demoWatching demoTieGame demoColors
        { action := "restore" } true).1.game = none
    ∧ (handle_game_ended demoWatching demoTieGame demoColors
        { action := "restore" } true).1.previous_preset = none :=
  c6_post_game_clears demoWatching demoTieGame demoColors
    { action := "restore" } true rfl rfl

/-- **C7** — the post-game winner determination: an equal final score takes
the distinct, explicitly handled `"TIE"` branch (whose colors are the home
team's) rather than throwing or naming the home team winner; unequal scores
name the team with the higher final score. -/
theorem c7_tie_is_explicit (gi : GameInfo)
    (f : String → String → List (List ℤ)) (league : String) :
    (gi.home_score = gi.away_score →
      determine_winner gi = "TIE"
        ∧ winner_colors f league gi = f league gi.home_team)
    ∧ (gi.home_score > gi.away_score → determine_winner gi = gi.home_team)
    ∧ (gi.away_score > gi.home_score → determine_winner gi = gi.away_team) := by
  unfold determine_winner winner_colors
  refine ⟨fun h => ?_, fun h => ?_, fun h => ?_⟩
  · simp [h, lt_irrefl]
  · simp [h]
  · simp [h, not_lt_of_gt h]

/-- Witness for C7 at a concrete tied final: the winner path is `"TIE"` and
the colors are the home team's. -/
theorem c7_tie_is_explicit_witness :
    determine_winner demoTieGame = "TIE"
    ∧ winner_colors demoColors "nfl" demoTieGame = demoColors "nfl" "GB" :=
  (c7_tie_is_explicit demoTieGame demoColors "nfl").1 rfl

/-- **C10** — a manual watch command always records `last_status = "in"`
regardless of the game's actual status; consequently the first poll that
reports `"post"` trips the `status == "post" and last_status != "post"`
transition check and hands off to the post-game handler. -/
theorem c10_watch_assumes_in (s : InstanceState) (league game_id : String)
    (preset : Option ℤ) (snap : GameInfo) (hpost : snap.status = "post")
    (hc ac : List (List ℤ)) :
    ((watch_game_on_instance s league game_id preset).1.game.map
        GameRef.last_status = some "in")
    ∧ (poll_update_inst (watch_game_on_instance s league game_id preset).1
        snap hc ac).2.1 = true := by
  unfold watch_game_on_instance poll_update_inst
  cases hs : s.simulating <;> simp [hpost]

/-- Witness for C10: watching an already-finished game on a fresh device,
then polling a final snapshot, triggers the post-game handoff. -/
theorem c10_watch_assumes_in_witness :
    ((watch_game_on_instance demoIdle "nfl" "401547500" none).1.game.map
        GameRef.last_status = some "in")
    ∧ (poll_update_inst (watch_game_on_instance demoIdle "nfl" "401547500" none).1
        demoTieGame [] []).2.1 = true :=
  c10_watch_assumes_in demoIdle "nfl" "401547500" none demoTieGame rfl [] []

/-- **C4 counterexample** — monotonicity does not hold for every display
config: on a 4-pixel strip with the default 14-pixel battle zone, the
computed home pixel count at winPct 0 is 0 but at winPct 1 it is −9, so with
p1 = 0 ≤ p2 = 1 the count strictly decreases. -/
theorem c4_counterexample :
    (0 : ℚ) ≤ 1
    ∧ home_pixels cfg4 0 = 0 ∧ home_pixels cfg4 1 = -9
    ∧ ¬ home_pixels cfg4 0 ≤ home_pixels cfg4 1 := by
  have h1 : home_pixels cfg4 0 = 0 := by
    norm_num [home_pixels, pyInt, clamped_pct, total_pixels, battle_zone, cfg4]
  have h2 : home_pixels cfg4 1 = -9 := by
    norm_num [home_pixels, pyInt, clamped_pct, total_pixels, battle_zone, cfg4]
    rw [Int.ceil_eq_iff]
    norm_num
  exact ⟨by norm_num, h1, h2, by omega⟩

/-- **C4 (amended)** — for every display config whose battle zone fits the
strip (`c + 2d ≤ totalPixels`) and winPct pair `p1 ≤ p2` in [0,1], the home
pixel count is non-decreasing in winPct. -/
theorem c4_amended_monotone (cfg : WLEDConfig) (p1 p2 : ℚ)
    (hbz : battle_zone cfg ≤ total_pixels cfg)
    (h0 : 0 ≤ p1) (h12 : p1 ≤ p2) (h1 : p2 ≤ 1)
    (hm0 : 0 < cfg.min_team_pct) (hm1 : cfg.min_team_pct < 1/2) :
    home_pixels cfg p1 ≤ home_pixels cfg p2 := by
  rw [home_pixels_eq_floor cfg p1 hbz hm0, home_pixels_eq_floor cfg p2 hbz hm0]
  refine Int.floor_le_floor (mul_le_mul_of_nonneg_left ?_ ?_)
  · exact clamped_pct_mono cfg h12
  · exact_mod_cast sub_nonneg.mpr hbz

/-- Witness for the amended C4 on the spec's 300-pixel scenario:
winPct 0.3 ≤ 0.7, and the home pixel counts 85 ≤ 200. -/
theorem c4_amended_monotone_witness :
    home_pixels cfg300 (3/10) ≤ home_pixels cfg300 (7/10)
    ∧ home_pixels cfg300 (3/10) = 85 ∧ home_pixels cfg300 (7/10) = 200 :=
  ⟨c4_amended_monotone cfg300 (3/10) (7/10) (by decide) (by norm_num)
      (by norm_num) (by norm_num) (by norm_num [cfg300]) (by norm_num [cfg300]),
   by norm_num [home_pixels, pyInt, clamped_pct, total_pixels, battle_zone, cfg300],
   by norm_num [home_pixels, pyInt, clamped_pct, total_pixels, battle_zone, cfg300]⟩

/-- **C3 counterexample** — the dignity bound as stated fails: on a 20-pixel
strip with m = 0.05 we have `totalPixels × m = 1 ≥ 1`, yet at winPct 0 the
clamped share covers only the 6 pixels left of the 14-pixel battle zone,
`home_pixels = int(6 × 0.05) = 0`, and the rendered plan contains no HOME
segment at all. -/
theorem c3_counterexample :
    1 ≤ ((total_pixels cfg20 : ℤ) : ℚ) * cfg20.min_team_pct
    ∧ ∀ s ∈ calculate_segments cfg20 0 sim_gray sim_gray,
        s.n ≠ some "HOME" := by
  have hh : home_pixels cfg20 0 = 0 := by
    norm_num [home_pixels, pyInt, clamped_pct, total_pixels, battle_zone, cfg20]
  have ha : away_pixels cfg20 0 = 6 := by
    rw [away_pixels, hh]
    norm_num [total_pixels, battle_zone, cfg20]
  refine ⟨by norm_num [total_pixels, cfg20], ?_⟩
  intro s hs
  have hp1 : cfg20.roofline_start = 0 := rfl
  have hp2 : cfg20.dark_buffer_pixels = 4 := rfl
  have hp3 : cfg20.contested_zone_pixels = 6 := rfl
  simp only [calculate_segments, appendIf, hh, ha, hp1, hp2, hp3] at hs
  norm_num at hs
  rcases hs with rfl | rfl | rfl | rfl | rfl | ⟨i, -, rfl⟩ <;>
    simp [bufferL_seg, divider_seg, bufferR_seg, away_seg, blackoutR_seg,
      delete_seg]

/-- **C3 (amended)** — minimum-dignity invariant with the battle zone
accounted for: for every winPct, after clamping to `[m, 1−m]`, both the HOME
and the AWAY segment of the rendered plan are present and non-empty whenever
`(totalPixels − battleZone) × m ≥ 1`. -/
theorem c3_amended_dignity (cfg : WLEDConfig) (p : ℚ)
    (hcols acols : List (List ℤ))
    (hm0 : 0 < cfg.min_team_pct) (hm1 : cfg.min_team_pct < 1/2)
    (hdig : 1 ≤ ((total_pixels cfg - battle_zone cfg : ℤ) : ℚ) * cfg.min_team_pct) :
    (∃ s ∈ calculate_segments cfg p hcols acols,
      s.n = some "HOME" ∧ ∃ a, s.seg_start = some a ∧ a < s.stop)
    ∧ (∃ s ∈ calculate_segments cfg p hcols acols,
      s.n = some "AWAY" ∧ ∃ a, s.seg_start = some a ∧ a < s.stop) := by
  have hhome := home_pixels_pos cfg p hm0 hdig
  have haway := away_pixels_pos cfg p hm0 hm1 hdig
  constructor
  · obtain ⟨i, hmem⟩ := home_seg_mem cfg p hcols acols hhome
    refine ⟨home_seg cfg p hcols i, hmem, rfl, cfg.roofline_start, rfl, ?_⟩
    show cfg.roofline_start < home_end cfg p
    unfold home_end
    omega
  · obtain ⟨i, hmem⟩ := away_seg_mem cfg p hcols acols haway
    exact ⟨away_seg cfg p acols i, hmem, rfl, away_start cfg p, rfl,
      away_start_lt_end cfg p haway⟩

/-- Witness for the amended C3 on the 300-pixel scenario at winPct 0:
`(300 − 14) × 0.05 = 14.3 ≥ 1`, and both team segments are present. -/
theorem c3_amended_dignity_witness :
    (∃ s ∈ calculate_segments cfg300 0 sim_gray sim_gray,
      s.n = some "HOME" ∧ ∃ a, s.seg_start = some a ∧ a < s.stop)
    ∧ (∃ s ∈ calculate_segments cfg300 0 sim_gray sim_gray,
      s.n = some "AWAY" ∧ ∃ a, s.seg_start = some a ∧ a < s.stop) :=
  c3_amended_dignity cfg300 0 sim_gray sim_gray (by norm_num [cfg300])
    (by norm_num [cfg300]) (by norm_num [total_pixels, battle_zone, cfg300])

/-- **C9** — complete-replacement output: for every input, the rendered
segment list carries exactly the slot ids 0 through 15 in order — every slot
up to the device's 16-slot capacity appears either as a populated (named)
segment or as a deletion marker (`stop = 0`), never left dangling. -/
theorem c9_complete_replacement (cfg : WLEDConfig) (p : ℚ)
    (hcols acols : List (List ℤ)) :
    (calculate_segments cfg p hcols acols).map Segment.id = List.range 16
    ∧ ∀ s ∈ calculate_segments cfg p hcols acols,
        s.n.isSome = true ∨ s.stop = 0 := by
  constructor
  · simp only [calculate_segments]
    set s1 := appendIf (0 < cfg.roofline_start) [] (blackoutL_seg cfg) with hs1
    set s2 := appendIf (0 < home_pixels cfg p) s1 (home_seg cfg p hcols) with hs2
    set s3 := appendIf (0 < cfg.dark_buffer_pixels) s2 (bufferL_seg cfg p) with hs3
    set s4 := appendIf (0 < cfg.contested_zone_pixels) s3 (divider_seg cfg p) with hs4
    set s5 := appendIf (0 < cfg.dark_buffer_pixels) s4 (bufferR_seg cfg p) with hs5
    set s6 := appendIf (0 < away_pixels cfg p) s5 (away_seg cfg p acols) with hs6
    set s7 := s6 ++ [blackoutR_seg cfg s6.length] with hs7
    have hids : s7.map Segment.id = List.range s7.length := by
      rw [hs7]
      refine ids_append_single rfl ?_
      rw [hs6]
      refine ids_appendIf (fun n => rfl) ?_
      rw [hs5]
      refine ids_appendIf (fun n => rfl) ?_
      rw [hs4]
      refine ids_appendIf (fun n => rfl) ?_
      rw [hs3]
      refine ids_appendIf (fun n => rfl) ?_
      rw [hs2]
      refine ids_appendIf (fun n => rfl) ?_
      rw [hs1]
      exact ids_appendIf (fun n => rfl) rfl
    have hlen : s7.length ≤ 16 := by
      have h1 := appendIf_length_le (0 < cfg.roofline_start) [] (blackoutL_seg cfg)
      have h2 := appendIf_length_le (0 < home_pixels cfg p) s1 (home_seg cfg p hcols)
      have h3 := appendIf_length_le (0 < cfg.dark_buffer_pixels) s2 (bufferL_seg cfg p)
      have h4 := appendIf_length_le (0 < cfg.contested_zone_pixels) s3 (divider_seg cfg p)
      have h5 := appendIf_length_le (0 < cfg.dark_buffer_pixels) s4 (bufferR_seg cfg p)
      have h6 := appendIf_length_le (0 < away_pixels cfg p) s5 (away_seg cfg p acols)
      rw [hs7]
      rw [← hs1] at h1
      rw [← hs2] at h2
      rw [← hs3] at h3
      rw [← hs4] at h4
      rw [← hs5] at h5
      rw [← hs6] at h6
      simp only [List.length_append, List.length_nil, List.length_cons] at *
      omega
    have hmap : List.map Segment.id
        ((List.range' s7.length (16 - s7.length)).map delete_seg)
          = List.range' s7.length (16 - s7.length) := by
      rw [List.map_map]
      simp [delete_seg, Function.comp_def]
    rw [List.map_append, hids, hmap, List.range_eq_range', List.range_eq_range']
    have happ := List.range'_append_1 0 s7.length (16 - s7.length)
    rw [Nat.zero_add] at happ
    rw [happ]
    congr 1
    omega
  · intro s hs
    simp only [calculate_segments] at hs
    rcases List.mem_append.mp hs with h7 | hdel
    · rcases List.mem_append.mp h7 with h6 | hR
      · have step : ∀ (c : Bool) (l : List Segment) (f : ℕ → Segment) (x : Segment),
            x ∈ appendIf c l f → (∀ n, (f n).n.isSome = true) →
            (∀ y ∈ l, y.n.isSome = true ∨ y.stop = 0) →
            x.n.isSome = true ∨ x.stop = 0 := by
          intro c l f x hx hf hl
          unfold appendIf at hx
          split at hx
          · rcases List.mem_append.mp hx with h | h
            · exact hl x h
            · rcases List.mem_singleton.mp h with rfl
              exact Or.inl (hf _)
          · exact hl x hx
        refine step _ _ _ s h6 (fun n => rfl) fun x1 hx1 => ?_
        refine step _ _ _ x1 hx1 (fun n => rfl) fun x2 hx2 => ?_
        refine step _ _ _ x2 hx2 (fun n => rfl) fun x3 hx3 => ?_
        refine step _ _ _ x3 hx3 (fun n => rfl) fun x4 hx4 => ?_
        refine step _ _ _ x4 hx4 (fun n => rfl) fun x5 hx5 => ?_
        refine step _ _ _ x5 hx5 (fun n => rfl) fun x6 hx6 => ?_
        simp at hx6
      · rcases List.mem_singleton.mp hR with rfl
        exact Or.inl rfl
    · rcases List.mem_map.mp hdel with ⟨i, -, rfl⟩
      exact Or.inr rfl

/-- **C8** — polling deduplication: in a poll tick, the ScoreFeed
game-detail calls (one per key of `games_to_poll`) number exactly the
distinct `(league, gameId)` pairs among the tracked devices, and each
tracked device is updated from the snapshot of its own pair — so all
devices watching one game render from the identical returned snapshot.
(League ids, which are config keys such as `"nfl"`, are assumed colon-free;
the dict key is the string `league:gameId`.) -/
theorem c8_poll_dedup (insts : List InstanceState)
    (feed : String → String → Option GameInfo)
    (hfree : ∀ i ∈ insts, ∀ g, i.game = some g → ':' ∉ g.league.data) :
    (poll_call_keys insts).length = (distincts (tracked_pairs insts)).length
    ∧ ∀ i ∈ insts, ∀ g, i.game = some g →
        snapshot_for feed g.league g.game_id = feed g.league g.game_id := by
  constructor
  · unfold poll_call_keys
    refine distincts_map_length (fun pr => gameKey pr.1 pr.2)
      (fun pr => ':' ∉ pr.1.data) ?_ (tracked_pairs insts) ?_
    · intro x y hx hy hf
      obtain ⟨hl, hg⟩ := gameKey_inj hx hy hf
      exact Prod.ext hl hg
    · intro pr hpr
      obtain ⟨i, hi, g, hg, rfl, -⟩ := tracked_pairs_sound insts pr hpr
      exact hfree i hi g hg
  · intro i hi g hg
    unfold snapshot_for
    rw [py_split_once_gameKey g.league g.game_id (hfree i hi g hg)]

/-- Witness for C8: two devices watching the same NFL game collapse to one
feed call, and each is updated from the snapshot of that game. -/
theorem c8_poll_dedup_witness :
    ((poll_call_keys demoInsts).length
        = (distincts (tracked_pairs demoInsts)).length
      ∧ ∀ i ∈ demoInsts, ∀ g, i.game = some g →
          snapshot_for (fun _ _ => none) g.league g.game_id
            = (fun _ _ => (none : Option GameInfo)) g.league g.game_id)
    ∧ (poll_call_keys demoInsts).length = 1 :=
  ⟨c8_poll_dedup demoInsts (fun _ _ => none)
    (by
      intro i hi g hg
      simp only [demoInsts, List.mem_cons, List.not_mem_nil, or_false] at hi
      rcases hi with rfl | rfl <;>
      · simp only [Option.some.injEq] at hg
        subst hg
        decide),
   by decide⟩

end Scoreline
